import Mathlib

/-!
Verification of the completeness-reconciliation and caching logic of
`PlexMediaExport.py`. Python dictionaries are modelled as association lists
(first match wins on lookup, in-place replacement on assignment, which is
observationally the semantics of a Python `dict` with unique keys), machine
timestamps as whole days (the code only ever inspects `(now - ts).days`), and
Excel `PatternFill` styles as an enumeration of the fill colours the script
defines in `STYLES['fills']`.
-/

set_option linter.unusedVariables false

namespace PlexMediaExport

/-- Lookup in a Python dict modelled as an association list: `m.get(k)`. -/
def dictGet {α β : Type} [BEq α] (m : List (α × β)) (k : α) : Option β :=
  (m.find? (fun p => p.1 == k)).map (fun p => p.2)

/-- Key-membership test on a Python dict: `k in m`. -/
def dictHasKey {α β : Type} [BEq α] (m : List (α × β)) (k : α) : Bool :=
  m.any (fun p => p.1 == k)

/-- Assignment `m[k] = v` on a Python dict: replaces the value in place if the
key is present, otherwise appends the new pair (insertion order preserved). -/
def dictSet {α β : Type} [BEq α] (m : List (α × β)) (k : α) (v : β) : List (α × β) :=
  if m.any (fun p => p.1 == k) then
    m.map (fun p => if p.1 == k then (k, v) else p)
  else
    m ++ [(k, v)]

/-- Deletion `del m[k]` on a Python dict. -/
def dictDel {α β : Type} [BEq α] (m : List (α × β)) (k : α) : List (α × β) :=
  m.filter (fun p => !(p.1 == k))

/-- The fill colours defined in `STYLES['fills']` (src lines 445-453). -/
inductive Fill where
  | gray
  | green
  | red
  | yellow
  | lightGreen4k
  | white
deriving DecidableEq, Repr

/-- `TVMazeShowInfo` TypedDict (src lines 51-54): `total_seasons` and a map
from season number to the season's `total_episodes` (the single field of the
`TVMazeSeasonInfo` TypedDict, src lines 47-49). -/
structure TVMazeShowInfo where
  total_seasons : Nat
  seasons : List (Nat × Nat)
deriving DecidableEq, Repr

/-- `PlexSeasonData` TypedDict (src lines 56-59). -/
structure PlexSeasonData where
  episodes_in_plex : Nat
  season_number : Nat
deriving DecidableEq, Repr

/-- `CacheEntry` TypedDict (src lines 61-64): note the code's own type declares
`data : Optional[TVMazeShowInfo]`, so an entry may hold the absent-marker
`None`. The `timestamp` is measured in whole days, the only granularity the
code inspects. -/
structure CacheEntry where
  timestamp : Nat
  data : Option TVMazeShowInfo
deriving DecidableEq, Repr

/-- The in-memory cache `_persistent_tvmaze_cache : Dict[str, CacheEntry]`
(src line 300). -/
abbrev Cache := List (String × CacheEntry)

/-- `TVMAZE_CACHE_SIZE = 256` (src line 164), documented as the
"maximum number of cached TVMaze lookups (in-memory)". -/
def TVMAZE_CACHE_SIZE : Nat := 256

/-- `TVMAZE_MAX_RETRIES = 3` (src line 165). -/
def TVMAZE_MAX_RETRIES : Nat := 3

/-- `TVMAZE_RETRY_DELAY = 1.0` seconds (src line 166); exact in ℚ. -/
def TVMAZE_RETRY_DELAY : ℚ := 1

/-- `TVMAZE_CACHE_MAX_AGE_DAYS = 30` (src line 170). -/
def TVMAZE_CACHE_MAX_AGE_DAYS : Nat := 30

/-- `get_from_cache` (src lines 372-395): returns the entry's `data` field if
the key is present and at most `TVMAZE_CACHE_MAX_AGE_DAYS` days old; an entry
older than that is deleted and treated as a miss. Returns the (possibly
mutated) cache alongside the looked-up value; `now` is the current day. -/
def get_from_cache (cache : Cache) (now : Nat) (key : String) :
    Option TVMazeShowInfo × Cache :=
  match dictGet cache key with
  | none => (none, cache)
  | some entry =>
    if TVMAZE_CACHE_MAX_AGE_DAYS < now - entry.timestamp then
      (none, dictDel cache key)
    else
      (entry.data, cache)

/-- `add_to_cache` (src lines 398-411): stores `data` under `key` with the
current timestamp. The stored field has the `Optional` type of the
`CacheEntry` TypedDict. -/
def add_to_cache (cache : Cache) (now : Nat) (key : String)
    (data : Option TVMazeShowInfo) : Cache :=
  dictSet cache key ⟨now, data⟩

/-- `get_tvmaze_show_info` (src lines 569-601): builds the composite cache key,
consults the cache, and on a miss uses the API fetch — modelled here by the
parameter `fetch_result`, the value `_fetch_tvmaze_show_info_from_api` would
return for this call. The fetched result is added to the cache only when it
is not `None` (the guard `if result is not None` at src line 598). -/
def get_tvmaze_show_info (fetch_result : Option TVMazeShowInfo) (cache : Cache)
    (now : Nat) (search_term : String) (is_imdb_id : Bool) :
    Option TVMazeShowInfo × Cache :=
  let cache_key := (if is_imdb_id then "imdb:" else "title:") ++ search_term
  let hit := get_from_cache cache now cache_key
  match hit.1 with
  | some cached_result => (some cached_result, hit.2)
  | none =>
    match fetch_result with
    | some r => (some r, add_to_cache hit.2 now cache_key (some r))
    | none => (none, hit.2)

/-- A Python exception value (only its presence matters to the control flow). -/
abbrev PyErr := String

/-- The outcome of one invocation of a Python callable, as seen by an exception
handler: a normal return, a raised `requests.exceptions.RequestException`, or
any other raised exception. -/
inductive PyOutcome (α : Type) where
  | ok (val : α)
  | requestException (e : PyErr)
  | otherException (e : PyErr)
deriving DecidableEq, Repr

/-- What the API fetch returns: show info, or `None` (not found / error). -/
abbrev FetchResult := Option TVMazeShowInfo

/-- Observable trace of a call to a function wrapped by `retry_on_failure`:
the final result (a normal return or a propagated exception), the delays
passed to `time.sleep` in order, and how many times the wrapped function was
invoked. -/
structure CallTrace (α : Type) where
  result : Except PyErr α
  sleeps : List ℚ
  calls : Nat
deriving Repr

/-- The `for attempt in range(max_retries + 1)` loop inside the wrapper built
by `retry_on_failure` (src lines 277-293). `func attempt` is the outcome of
the wrapped function's invocation number `attempt`; `fuel` is the number of
loop iterations left, `delay` the current backoff delay. On a
`RequestException` with retries left the wrapper sleeps and doubles the
delay; on the last attempt it re-raises. Any other exception re-raises at
once. Exhausting the loop falls through to `return None` (src line 293). -/
def retry_loop (func : Nat → PyOutcome FetchResult) (max_retries : Nat)
    (backoff_factor : ℚ) :
    Nat → Nat → ℚ → List ℚ → Nat → CallTrace FetchResult
  | _, 0, _, sleeps, calls => ⟨Except.ok none, sleeps, calls⟩
  | attempt, fuel + 1, delay, sleeps, calls =>
    match func attempt with
    | .ok v => ⟨Except.ok v, sleeps, calls + 1⟩
    | .requestException e =>
      if attempt < max_retries then
        retry_loop func max_retries backoff_factor (attempt + 1) fuel
          (delay * backoff_factor) (sleeps ++ [delay]) (calls + 1)
      else
        ⟨Except.error e, sleeps, calls + 1⟩
    | .otherException e => ⟨Except.error e, sleeps, calls + 1⟩

/-- `retry_on_failure` (src lines 262-295): runs the wrapped function through
the retry loop, starting at attempt 0 with the base delay. -/
def retry_on_failure (max_retries : Nat) (base_delay backoff_factor : ℚ)
    (func : Nat → PyOutcome FetchResult) : CallTrace FetchResult :=
  retry_loop func max_retries backoff_factor 0 (max_retries + 1) base_delay [] 0

/-- The body of `_fetch_tvmaze_show_info_from_api` (src lines 514-566): the
whole request/parse logic sits in a single `try` block whose handlers catch
`requests.exceptions.RequestException` (line 560), `ValueError` (line 562)
and `Exception` (line 564) and fall through to `return None`. `raw` is what
the try-block would produce if its exceptions propagated. -/
def fetch_body (raw : PyOutcome FetchResult) : PyOutcome FetchResult :=
  match raw with
  | .ok v => .ok v
  | .requestException _ => .ok none
  | .otherException _ => .ok none

/-- `_fetch_tvmaze_show_info_from_api` as decorated by `@retry_on_failure()`
(src line 500): the retry wrapper applied, with its default parameters
(`TVMAZE_MAX_RETRIES`, `TVMAZE_RETRY_DELAY`, factor 2.0), to the
exception-catching body. `api attempt` is the outcome the underlying HTTP
interaction would have on invocation number `attempt`. -/
def _fetch_tvmaze_show_info_from_api (api : Nat → PyOutcome FetchResult) :
    CallTrace FetchResult :=
  retry_on_failure TVMAZE_MAX_RETRIES TVMAZE_RETRY_DELAY 2
    (fun attempt => fetch_body (api attempt))

/-- The expression `plex_seasons_data.get(season_num, {}).get('episodes_in_plex', 0)`
(src line 1206): the local episode count for a season, defaulting to 0. -/
def plexEpCount (plex_seasons_data : List (Nat × PlexSeasonData))
    (season_num : Nat) : Nat :=
  ((dictGet plex_seasons_data season_num).map
    (fun d => d.episodes_in_plex)).getD 0

/-- The expression `max(plex_seasons_data.keys(), default=-1)` (src line 1227),
computed in ℤ so the default −1 is representable. -/
def maxPlexSeasonKey (plex_seasons_data : List (Nat × PlexSeasonData)) : Int :=
  (plex_seasons_data.map (fun p => (p.1 : Int))).foldr max (-1)

/-- The `else` arm of `_calculate_season_cell` (src lines 1224-1228), reached
when `tvmaze_info` is `None` or its `seasons` dict is empty: a positive local
count renders `local/?` with the yellow attention fill; otherwise a season
number beyond the highest locally-known one gets the gray fill, and anything
else stays a blank unfilled cell. -/
def _season_cell_no_remote (season_num plex_s_ep_count : Nat)
    (plex_seasons_data : List (Nat × PlexSeasonData)) : String × Option Fill :=
  if 0 < plex_s_ep_count then
    (toString plex_s_ep_count ++ "/?", some Fill.yellow)
  else if maxPlexSeasonKey plex_seasons_data < (season_num : Int) then
    ("", some Fill.gray)
  else
    ("", none)

/-- `_calculate_season_cell` (src lines 1192-1230): the per-season cell text
and fill. With a remote entry for the season, the text is
`plex_count/tvmaze_count` and the fill is gray or yellow for a zero remote
count (depending on the local count), green when the local count reaches the
remote count, red when it is positive but short, and absent when it is zero.
Without a usable remote entry the `_season_cell_no_remote` arm applies. -/
def _calculate_season_cell (season_num : Nat)
    (tvmaze_info : Option TVMazeShowInfo)
    (plex_seasons_data : List (Nat × PlexSeasonData)) : String × Option Fill :=
  let plex_s_ep_count := plexEpCount plex_seasons_data season_num
  match tvmaze_info with
  | some info =>
    if info.seasons.isEmpty then
      _season_cell_no_remote season_num plex_s_ep_count plex_seasons_data
    else
      match dictGet info.seasons season_num with
      | some tvmaze_s_ep_count =>
        let season_text :=
          toString plex_s_ep_count ++ "/" ++ toString tvmaze_s_ep_count
        if tvmaze_s_ep_count = 0 then
          (season_text,
           some (if plex_s_ep_count = 0 then Fill.gray else Fill.yellow))
        else if tvmaze_s_ep_count ≤ plex_s_ep_count then
          (season_text, some Fill.green)
        else if 0 < plex_s_ep_count then
          (season_text, some Fill.red)
        else
          (season_text, none)
      | none =>
        if 0 < plex_s_ep_count then
          (toString plex_s_ep_count ++ "/?", some Fill.yellow)
        else
          ("", some Fill.gray)
  | none => _season_cell_no_remote season_num plex_s_ep_count plex_seasons_data

/-- The local `tvmaze_total_regular_seasons` of `_calculate_series_completion`
(src line 1164): `sum(1 for s_num in tvmaze_info.get('seasons', {}) if s_num > 0)`. -/
def regularRemoteSeasons (info : TVMazeShowInfo) : Nat :=
  info.seasons.countP (fun p => decide (0 < p.1))

/-- The loop of `_calculate_series_completion` computing
`complete_plex_regular_seasons_count` (src lines 1165-1173): regular remote
seasons whose Plex entry exists and has at least as many episodes as the
positive remote count. -/
def completeRegularSeasons (info : TVMazeShowInfo)
    (plex_seasons_data : List (Nat × PlexSeasonData)) : Nat :=
  info.seasons.countP (fun p =>
    decide (p.1 ≠ 0) &&
    (match dictGet plex_seasons_data p.1 with
     | some plex_s_data =>
       decide (p.2 ≤ plex_s_data.episodes_in_plex) && decide (0 < p.2)
     | none => false))

/-- The local `plex_regular_season_count` of the no-remote arm of
`_calculate_series_completion` (src line 1185). -/
def plexRegularSeasonCount
    (plex_seasons_data : List (Nat × PlexSeasonData)) : Nat :=
  plex_seasons_data.countP (fun p => decide (0 < p.1))

/-- `_calculate_series_completion` (src lines 1152-1189): the series status
text and fill. With remote info: `complete/total` over regular seasons, gray
when there are no regular remote seasons, green when every one is complete,
red when some but not all are, and no fill when none is. Without remote info:
`plex_regular_count/?`, with the yellow attention fill exactly when the local
regular-season count is positive. -/
def _calculate_series_completion (tvmaze_info : Option TVMazeShowInfo)
    (plex_seasons_data : List (Nat × PlexSeasonData)) : String × Option Fill :=
  match tvmaze_info with
  | some info =>
    let tvmaze_total_regular_seasons := regularRemoteSeasons info
    let complete_plex_regular_seasons_count :=
      completeRegularSeasons info plex_seasons_data
    let series_status_text :=
      toString complete_plex_regular_seasons_count ++ "/" ++
        toString tvmaze_total_regular_seasons
    let series_fill : Option Fill :=
      if tvmaze_total_regular_seasons = 0 then some Fill.gray
      else if tvmaze_total_regular_seasons ≤ complete_plex_regular_seasons_count then
        some Fill.green
      else if 0 < complete_plex_regular_seasons_count then some Fill.red
      else none
    (series_status_text, series_fill)
  | none =>
    let plex_regular_season_count := plexRegularSeasonCount plex_seasons_data
    (toString plex_regular_season_count ++ "/?",
     if 0 < plex_regular_season_count then some Fill.yellow else none)

/-- Fuel-bounded digit expansion: with fuel exceeding `n` this yields the
decimal digit characters of `n`, most significant first. -/
def digitCharsAux : Nat → Nat → List Char
  | 0, _ => []
  | fuel + 1, n =>
    if n < 10 then [Nat.digitChar n]
    else digitCharsAux fuel (n / 10) ++ [Nat.digitChar (n % 10)]

/-- Decimal digit characters of a natural number, most significant first:
the character sequence `str(n)` produces in Python. -/
def digitChars (n : Nat) : List Char :=
  digitCharsAux (n + 1) n

/-- Character sequence of Python's `f"{n:02d}"`: the decimal digits of `n`,
zero-padded on the left to width 2. -/
def py02dChars (n : Nat) : List Char :=
  if n < 10 then '0' :: digitChars n else digitChars n

/-- The season column header `f"S{i:02d}"` (src line 1147). -/
def seasonHeaderLabel (i : Nat) : String :=
  String.mk ('S' :: py02dChars i)

/-- `ALL_POSSIBLE_SHOW_FIELDS` (src lines 140-145). -/
def ALL_POSSIBLE_SHOW_FIELDS : List String :=
  ["Title", "Year", "Studio", "ContentRating", "Summary", "Tagline",
   "AddedAt", "LastViewedAt", "OriginallyAvailableAt",
   "AudienceRating", "Rating", "Collections", "Genres", "Labels",
   "ViewCount", "SkipCount"]

/-- `DEFAULT_SHOW_FIELDS` (src lines 147-149). -/
def DEFAULT_SHOW_FIELDS : List String :=
  ["Title", "Year", "Studio", "ContentRating", "Summary"]

/-- One entry of `shows_data_full` after `get_show_details` has popped
`max_seasons`: the selected metadata fields plus `seasons_in_plex` and
`tvmaze_info` (the combined dict built at src lines 878-883, minus the popped
key). -/
structure ShowRecordData where
  fields : List (String × String)
  seasons_in_plex : List (Nat × PlexSeasonData)
  tvmaze_info : Option TVMazeShowInfo
deriving DecidableEq, Repr

/-- `_generate_tv_show_headers` (src lines 1130-1149): base field headers, the
completion column, then `"S00"` when any show has a local season 0, then
`"S01".."Sxx"` up to `max_seasons_overall`. `selected_show_fields` stands for
the global `SELECTED_SHOW_FIELDS`, always a sublist of
`ALL_POSSIBLE_SHOW_FIELDS` (src lines 150-160). Returns
`(final_headers, season_headers_list)`. -/
def _generate_tv_show_headers (selected_show_fields : List String)
    (shows_data_full : List ShowRecordData) (max_seasons_overall : Nat) :
    List String × List String :=
  let base_headers := selected_show_fields
  let completion_header := "Series Complete (Plex/TVMaze)"
  let has_specials :=
    shows_data_full.any (fun show_dict => dictHasKey show_dict.seasons_in_plex 0)
  let season_headers_list :=
    (if has_specials then ["S00"] else []) ++
      ((List.range' 1 max_seasons_overall).map seasonHeaderLabel)
  (base_headers ++ [completion_header] ++ season_headers_list,
   season_headers_list)

/-- A Plex show object as `process_single_show` consumes it, with the
side-effecting parts of the per-show pipeline abstracted to their outcomes:
`metadata` is the result of `process_show_metadata` and the title/guid
accesses before the lookup (src lines 833-841), `lookup` the result of the
TVMaze lookup section with its IMDB→title fallback (src lines 843-852), and
`seasonsData`/`seasonsErr` the entries the `show_obj.seasons()` loop adds to
`plex_seasons_data` before finishing or raising, plus the error the inner
handler at src lines 874-875 catches, if any. An `Except.error` in `metadata`
or `lookup` propagates to the outer handler (src lines 887-895). -/
structure ShowObj where
  title : String
  metadata : Except PyErr (List (String × String))
  lookup : Except PyErr (Option TVMazeShowInfo)
  seasonsData : List (Nat × PlexSeasonData)
  seasonsErr : Option PyErr

/-- The combined per-show dict built at src lines 878-883, before
`get_show_details` pops `max_seasons`. -/
structure ProcessedShow where
  fields : List (String × String)
  seasons_in_plex : List (Nat × PlexSeasonData)
  tvmaze_info : Option TVMazeShowInfo
  max_seasons : Nat
deriving DecidableEq, Repr

/-- The `show_data.pop('max_seasons', 0)` step of `get_show_details`
(src line 929): the record without its `max_seasons` key. -/
def popMaxSeasons (r : ProcessedShow) : ShowRecordData :=
  ⟨r.fields, r.seasons_in_plex, r.tvmaze_info⟩

/-- The body of the `try` block of `process_single_show` (src lines 832-885):
metadata extraction, then the TVMaze lookup (whose `total_seasons` becomes
`show_max_seasons` when info was found, src lines 854-858), then the Plex
seasons loop whose own errors are caught by the inner handler and leave the
partially built `plex_seasons_data` in place (src lines 861-875). -/
def process_single_show_body (show_obj : ShowObj) :
    Except PyErr ProcessedShow := do
  let show_metadata ← show_obj.metadata
  let tvmaze_info ← show_obj.lookup
  let show_max_seasons :=
    match tvmaze_info with
    | some info => info.total_seasons
    | none => 0
  let plex_seasons_data := show_obj.seasonsData
  pure ⟨show_metadata, plex_seasons_data, tvmaze_info, show_max_seasons⟩

/-- `process_single_show` (src lines 820-895): the pipeline body, with the
outer `except Exception` handler (src lines 887-895) degrading any failure to
the minimal record `{'Title': title, 'seasons_in_plex': {}, 'tvmaze_info':
None, 'max_seasons': 0}`. -/
def process_single_show (show_obj : ShowObj) : ProcessedShow :=
  match process_single_show_body show_obj with
  | .ok r => r
  | .error _ => ⟨[("Title", show_obj.title)], [], none, 0⟩

/-- `get_show_details` (src lines 898-935): maps `process_single_show` over
the shows (the `ThreadPoolExecutor.map` at src line 924 preserves input order
and yields one result per show), then the result loop pops `max_seasons` from
each record while folding the running maximum, starting from 0. The
`if show_data:` guard at src line 928 never rejects a record, since every
record dict is non-empty. -/
def get_show_details (shows : List ShowObj) : List ShowRecordData × Nat :=
  let show_results := shows.map process_single_show
  (show_results.map popMaxSeasons,
   show_results.foldl (fun acc r => max acc r.max_seasons) 0)

/-- Whether `tvmaze_info and tvmaze_info.get('seasons')` (src line 1208) is
truthy: remote info is present and its seasons dict is non-empty. -/
def remoteSeasonsNonempty (tvmaze_info : Option TVMazeShowInfo) : Bool :=
  match tvmaze_info with
  | some info => !info.seasons.isEmpty
  | none => false

/-- Example show whose whole pipeline succeeds, with TVMaze info reporting 7
total seasons. -/
def demoShowOk : ShowObj :=
  ⟨"Fine Show", Except.ok [("Title", "Fine Show")],
   Except.ok (some ⟨7, [(1, 10)]⟩), [(1, ⟨10, 1⟩)], none⟩

/-- Example show whose metadata extraction raises, so the outer handler of
`process_single_show` degrades it to the minimal record. -/
def demoShowBad : ShowObj :=
  ⟨"Broken Show", Except.error "AttributeError", Except.ok none, [], none⟩

/-- A search-term cache key of length `i + 6`, as the title lookup for a show
whose title is `i` repetitions of `a` would build (src line 585). -/
def distinctKey (i : Nat) : String :=
  "title:" ++ String.mk (List.replicate i 'a')

/-- The cache state after `n` `add_to_cache` calls with pairwise distinct
keys, starting from the empty cache. -/
def fillCache : Nat → Cache
  | 0 => []
  | n + 1 => add_to_cache (fillCache n) 0 (distinctKey n) none

/-! ### Helper lemmas about the dictionary model -/

theorem dictGet_dictSet {α β : Type} [BEq α] [LawfulBEq α]
    (m : List (α × β)) (k : α) (v : β) :
    dictGet (dictSet m k v) k = some v := by
  unfold dictSet
  by_cases hany : m.any (fun p => p.1 == k)
  · rw [if_pos hany]
    induction m with
    | nil => simp at hany
    | cons p t ih =>
      rw [List.map_cons]
      by_cases hp : p.1 == k
      · have hh : (if p.1 == k then (k, v) else p) = (k, v) := by simp [hp]
        rw [hh]
        unfold dictGet
        rw [List.find?_cons_of_pos _ (by simp)]
        rfl
      · have hh : (if p.1 == k then (k, v) else p) = p := by simp [hp]
        rw [hh]
        have hany' : t.any (fun p => p.1 == k) := by
          rcases List.any_eq_true.mp hany with ⟨x, hx, hpx⟩
          rcases List.mem_cons.mp hx with rfl | hxt
          · exact absurd hpx (by simpa using hp)
          · exact List.any_eq_true.mpr ⟨x, hxt, hpx⟩
        unfold dictGet
        rw [List.find?_cons_of_neg _ (by simpa using hp)]
        exact ih hany'
  · rw [if_neg hany]
    unfold dictGet
    rw [List.find?_append]
    have h1 : m.find? (fun p => p.1 == k) = none := by
      rw [List.find?_eq_none]
      intro x hx hpx
      exact hany (List.any_eq_true.mpr ⟨x, hx, hpx⟩)
    rw [h1]
    simp

theorem dictGet_of_mem_keys {α β : Type} [BEq α] [LawfulBEq α]
    {m : List (α × β)} {k : α} {v : β} (h : dictGet m k = some v) :
    m ≠ [] := by
  intro hnil
  rw [hnil] at h
  simp [dictGet] at h

/-! ### Helper lemmas about decimal rendering -/

theorem digitCharsAux_succ_ne_nil (fuel n : Nat) :
    digitCharsAux (fuel + 1) n ≠ [] := by
  rw [digitCharsAux]
  split
  · simp
  · simp

theorem digitCharsAux_no_leading_zero :
    ∀ fuel n, n < fuel → 1 ≤ n → ∀ cs, digitCharsAux fuel n ≠ '0' :: cs := by
  intro fuel
  induction fuel with
  | zero => intro n hn; omega
  | succ fuel ih =>
    intro n hn h1 cs heq
    rw [digitCharsAux] at heq
    split at heq
    · rename_i h10
      injection heq with ha hb
      revert ha
      interval_cases n <;> decide
    · rename_i h10
      obtain ⟨f, rfl⟩ : ∃ f, fuel = f + 1 := ⟨fuel - 1, by omega⟩
      obtain ⟨d, ds, hd⟩ :=
        List.exists_cons_of_ne_nil (digitCharsAux_succ_ne_nil f (n / 10))
      rw [hd, List.cons_append] at heq
      injection heq with ha hb
      subst ha
      have hdiv : n / 10 < f + 1 := by omega
      exact ih (n / 10) hdiv (by omega) ds hd

theorem digitChars_no_leading_zero :
    ∀ n, 1 ≤ n → ∀ cs, digitChars n ≠ '0' :: cs := by
  intro n hn cs
  exact digitCharsAux_no_leading_zero (n + 1) n (by omega) hn cs

theorem py02dChars_ne_00 (i : Nat) (hi : 1 ≤ i) : py02dChars i ≠ ['0', '0'] := by
  unfold py02dChars
  split
  · intro heq
    injection heq with h1 h2
    exact digitChars_no_leading_zero i hi [] h2
  · intro heq
    exact digitChars_no_leading_zero i hi ['0'] heq

theorem seasonHeaderLabel_ne_S00 (i : Nat) (hi : 1 ≤ i) :
    seasonHeaderLabel i ≠ "S00" := by
  intro h
  rw [seasonHeaderLabel, String.ext_iff] at h
  have hdata : ('S' :: py02dChars i) = ['S', '0', '0'] := h
  injection hdata with h1 h2
  exact py02dChars_ne_00 i hi h2

/-! ### Helper lemmas about counting and maxima -/

theorem completeRegularSeasons_le_regularRemoteSeasons (info : TVMazeShowInfo)
    (plex_seasons_data : List (Nat × PlexSeasonData)) :
    completeRegularSeasons info plex_seasons_data ≤ regularRemoteSeasons info := by
  unfold completeRegularSeasons regularRemoteSeasons
  apply List.countP_mono_left
  intro p hp hcond
  rw [Bool.and_eq_true] at hcond
  have h1 : p.1 ≠ 0 := by simpa using hcond.1
  simpa using by omega

theorem foldl_max_eq_max_foldr (l : List Nat) (a : Nat) :
    l.foldl max a = max a (l.foldr max 0) := by
  induction l generalizing a with
  | nil => simp
  | cons x t ih =>
    rw [List.foldl_cons, List.foldr_cons, ih (max a x), Nat.max_assoc]

theorem le_foldr_max (l : List Nat) (a : Nat) (h : a ∈ l) :
    a ≤ l.foldr max 0 := by
  induction l with
  | nil => cases h
  | cons x t ih =>
    rw [List.foldr_cons]
    rcases List.mem_cons.mp h with rfl | h2
    · exact Nat.le_max_left _ _
    · exact le_trans (ih h2) (Nat.le_max_right _ _)

/-! ### Helper lemmas about the growing cache -/

theorem distinctKey_length (i : Nat) : (distinctKey i).length = 6 + i := by
  rw [distinctKey, String.length_append]
  simp [String.length]

theorem fillCache_keys_short :
    ∀ n, ∀ p ∈ fillCache n, (p : String × CacheEntry).1.length < 6 + n := by
  intro n
  induction n with
  | zero => intro p hp; cases hp
  | succ n ih =>
    intro p hp
    rw [fillCache, add_to_cache, dictSet] at hp
    have hfresh : (fillCache n).any (fun p => p.1 == distinctKey n) = false := by
      rw [Bool.eq_false_iff]
      intro hany
      rcases List.any_eq_true.mp hany with ⟨x, hx, hpx⟩
      have hx1 : x.1 = distinctKey n := by simpa using hpx
      have := ih x hx
      rw [hx1, distinctKey_length] at this
      omega
    rw [hfresh] at hp
    simp only [Bool.false_eq_true, if_false] at hp
    rcases List.mem_append.mp hp with hold | hnew
    · exact lt_trans (ih p hold) (by omega)
    · rcases List.mem_singleton.mp hnew with rfl
      rw [distinctKey_length]
      omega

theorem fillCache_length : ∀ n, (fillCache n).length = n := by
  intro n
  induction n with
  | zero => rfl
  | succ n ih =>
    rw [fillCache, add_to_cache, dictSet]
    have hfresh : (fillCache n).any (fun p => p.1 == distinctKey n) = false := by
      rw [Bool.eq_false_iff]
      intro hany
      rcases List.any_eq_true.mp hany with ⟨x, hx, hpx⟩
      have hx1 : x.1 = distinctKey n := by simpa using hpx
      have := fillCache_keys_short n x hx
      rw [hx1, distinctKey_length] at this
      omega
    rw [hfresh]
    simp only [Bool.false_eq_true, if_false, List.length_append, ih]
    rfl

/-! ### Claim theorems -/

/-- C1: for every season whose remote entry has a positive episode count,
`_calculate_season_cell` renders the text `local/remote` and classifies the
season COMPLETE (green highlight) when `local_count >= remote_count`, PARTIAL
(red attention highlight) when `0 < local_count < remote_count`, and EMPTY
(no highlight) when `local_count = 0`. -/
theorem season_cell_positive_remote_classification
    (season_num tvmaze_s_ep_count : Nat) (info : TVMazeShowInfo)
    (plex_seasons_data : List (Nat × PlexSeasonData))
    (hlk : dictGet info.seasons season_num = some tvmaze_s_ep_count)
    (hpos : 0 < tvmaze_s_ep_count) :
    _calculate_season_cell season_num (some info) plex_seasons_data =
      (toString (plexEpCount plex_seasons_data season_num) ++ "/" ++
         toString tvmaze_s_ep_count,
       if tvmaze_s_ep_count ≤ plexEpCount plex_seasons_data season_num then
         some Fill.green
       else if 0 < plexEpCount plex_seasons_data season_num then some Fill.red
       else none) := by
  have hne : info.seasons.isEmpty = false := by
    cases h : info.seasons with
    | nil => exact absurd hlk (by rw [h]; simp [dictGet])
    | cons a l => rfl
  have h0 : ¬ tvmaze_s_ep_count = 0 := by omega
  simp only [_calculate_season_cell, hne, Bool.false_eq_true, if_false, hlk,
    h0]
  split_ifs <;> rfl

/-- C1 witness: local 10 of 10 remote episodes in season 1 is COMPLETE,
rendered `10/10` with the green fill. -/
theorem season_cell_positive_remote_classification_witness :
    _calculate_season_cell 1 (some ⟨2, [(1, 10)]⟩) [(1, ⟨10, 1⟩)] =
      ("10/10", some Fill.green) := by
  rw [season_cell_positive_remote_classification 1 10 ⟨2, [(1, 10)]⟩
    [(1, ⟨10, 1⟩)] (by decide) (by decide)]
  decide

/-- C2 (code bug): a lookup whose remote fetch finds no match leaves the
cache unchanged — the guard `if result is not None` (src line 598) skips
`add_to_cache` for the negative result, contradicting the comment right
above it ("including explicit None for not found") — so a second lookup of
the same key misses again and takes whatever the remote fetch now returns
instead of a cached negative. -/
theorem negative_lookup_result_is_not_cached :
    (get_tvmaze_show_info none [] 0 "Gone Show" false).2 = [] ∧
    (get_tvmaze_show_info (some ⟨1, [(1, 2)]⟩)
        (get_tvmaze_show_info none [] 0 "Gone Show" false).2
        0 "Gone Show" false).1 = some ⟨1, [(1, 2)]⟩ := by
  exact ⟨rfl, rfl⟩

/-- C3 (code bug): a TVMaze fetch whose HTTP request raises
`requests.exceptions.RequestException` on every attempt invokes the request
logic exactly once, never sleeps, and returns `None`: the `except` clause
inside `_fetch_tvmaze_show_info_from_api` (src line 560) swallows the
exception before the `retry_on_failure` wrapper can observe it, so no retry
and no backoff ever happen. -/
theorem transient_network_error_is_not_retried :
    _fetch_tvmaze_show_info_from_api
        (fun attempt => PyOutcome.requestException "connection timeout") =
      ⟨Except.ok none, [], 1⟩ := rfl

/-- The wrapper built by `retry_on_failure` does implement the documented
policy whenever the wrapped function lets a `RequestException` escape: with
the default parameters an always-failing function is invoked 4 times, with
backoff sleeps of 1, 2 and 4 seconds, before the exception propagates. It is
the composition with the exception-swallowing fetch body that defeats it. -/
theorem retry_on_failure_backoff_policy (e : PyErr) :
    retry_on_failure TVMAZE_MAX_RETRIES TVMAZE_RETRY_DELAY 2
      (fun attempt => PyOutcome.requestException e) =
      ⟨Except.error e, [1, 2, 4], 4⟩ := by
  show retry_loop _ _ _ 0 4 1 [] 0 = _
  norm_num [retry_loop, TVMAZE_MAX_RETRIES]

/-- C4: `_calculate_series_completion` renders `numerator/denominator` over
the regular remote seasons (numerator: those with a positive remote count
matched or exceeded locally; denominator: all of them) and classifies the
series NEUTRAL (gray) when the denominator is 0, COMPLETE (green) exactly
when the numerator equals the denominator, PARTIAL (red) when it is positive
but short, and EMPTY (no fill) when it is 0 with remote info present. With no
remote info at all, the text is `localRegularSeasonCount/?` with the yellow
needs-attention fill exactly when that count is positive — never COMPLETE. -/
theorem series_completion_classification (tvmaze_info : Option TVMazeShowInfo)
    (plex_seasons_data : List (Nat × PlexSeasonData)) :
    _calculate_series_completion tvmaze_info plex_seasons_data =
      match tvmaze_info with
      | some info =>
        (toString (completeRegularSeasons info plex_seasons_data) ++ "/" ++
           toString (regularRemoteSeasons info),
         if regularRemoteSeasons info = 0 then some Fill.gray
         else if completeRegularSeasons info plex_seasons_data =
             regularRemoteSeasons info then some Fill.green
         else if 0 < completeRegularSeasons info plex_seasons_data then
           some Fill.red
         else none)
      | none =>
        (toString (plexRegularSeasonCount plex_seasons_data) ++ "/?",
         if 0 < plexRegularSeasonCount plex_seasons_data then some Fill.yellow
         else none) := by
  cases tvmaze_info with
  | none => rfl
  | some info =>
    have hle := completeRegularSeasons_le_regularRemoteSeasons info
      plex_seasons_data
    simp only [_calculate_series_completion]
    split_ifs <;> first | rfl | omega

/-- C5 (counterexample): remote info exists (seasons `{2: 5}`) but has no
entry for season 1 and the local count is 0. The claim demands the
UNKNOWN-REMOTE attention cell `"0/?"` for every season without a remote
entry, but the code renders a blank gray (neutral) cell instead. -/
theorem season_cell_unknown_remote_counterexample :
    _calculate_season_cell 1 (some ⟨2, [(2, 5)]⟩) [] = ("", some Fill.gray) ∧
    _calculate_season_cell 1 (some ⟨2, [(2, 5)]⟩) [] ≠
      ("0/?", some Fill.yellow) := by
  exact ⟨rfl, by decide⟩

/-- C5 (amended): for a season with no remote entry, a positive local count
yields the UNKNOWN-REMOTE cell `localCount/?` with the yellow attention fill
(never complete); a zero local count yields a blank gray NEUTRAL cell when
remote info with a non-empty seasons dict exists; with no usable remote info
at all, a zero-local season beyond the highest locally-known season is gray
NEUTRAL and any other zero-local season is a blank unfilled cell. -/
theorem season_cell_unknown_remote_amended (season_num : Nat)
    (tvmaze_info : Option TVMazeShowInfo)
    (plex_seasons_data : List (Nat × PlexSeasonData))
    (hnone : ∀ info, tvmaze_info = some info →
      dictGet info.seasons season_num = none) :
    _calculate_season_cell season_num tvmaze_info plex_seasons_data =
      (if 0 < plexEpCount plex_seasons_data season_num then
        (toString (plexEpCount plex_seasons_data season_num) ++ "/?",
         some Fill.yellow)
      else if remoteSeasonsNonempty tvmaze_info then ("", some Fill.gray)
      else if maxPlexSeasonKey plex_seasons_data < (season_num : Int) then
        ("", some Fill.gray)
      else ("", none)) := by
  cases tvmaze_info with
  | none =>
    simp only [_calculate_season_cell, _season_cell_no_remote,
      remoteSeasonsNonempty, Bool.false_eq_true, if_false]
  | some info =>
    have h := hnone info rfl
    by_cases hemp : info.seasons.isEmpty
    · have hne : remoteSeasonsNonempty (some info) = false := by
        simp [remoteSeasonsNonempty, hemp]
      simp only [_calculate_season_cell, hemp, if_true,
        _season_cell_no_remote, hne, Bool.false_eq_true, if_false]
    · have hemp' : info.seasons.isEmpty = false := by
        simpa using hemp
      have hne : remoteSeasonsNonempty (some info) = true := by
        simp [remoteSeasonsNonempty, hemp']
      simp only [_calculate_season_cell, hemp', Bool.false_eq_true, if_false,
        h, hne, if_true]

/-- C5 amended witness: season 3 has 4 local episodes and no remote entry,
giving the attention cell `4/?`. -/
theorem season_cell_unknown_remote_amended_witness :
    _calculate_season_cell 3 (some ⟨2, [(2, 5)]⟩) [(3, ⟨4, 3⟩)] =
      ("4/?", some Fill.yellow) := by
  rw [season_cell_unknown_remote_amended 3 (some ⟨2, [(2, 5)]⟩)
    [(3, ⟨4, 3⟩)] (fun info hinfo => by cases hinfo; decide)]
  decide

/-- C6: cache round-trip: `add_to_cache key value` followed by
`get_from_cache key` returns `value` unchanged — whether it is a real
show-info object or the absent-marker `None` — as long as the entry's age is
within the 30-day maximum. -/
theorem cache_roundtrip (cache : Cache) (key : String)
    (value : Option TVMazeShowInfo) (t_put t_get : Nat)
    (hage : t_get - t_put ≤ TVMAZE_CACHE_MAX_AGE_DAYS) :
    (get_from_cache (add_to_cache cache t_put key value) t_get key).1 =
      value := by
  have h30 : TVMAZE_CACHE_MAX_AGE_DAYS = 30 := rfl
  simp only [get_from_cache, add_to_cache, dictGet_dictSet]
  rw [if_neg (by omega)]

/-- C6 witness: round-trips of a cached negative and of a real show-info
object, both read 7 days after being stored. -/
theorem cache_roundtrip_witness :
    (get_from_cache (add_to_cache [] 3 "title:Foo" none) 10 "title:Foo").1 =
      none ∧
    (get_from_cache (add_to_cache [] 3 "imdb:tt0106145" (some ⟨2, [(1, 8)]⟩))
        10 "imdb:tt0106145").1 = some ⟨2, [(1, 8)]⟩ :=
  ⟨cache_roundtrip [] "title:Foo" none 3 10 (by decide),
   cache_roundtrip [] "imdb:tt0106145" (some ⟨2, [(1, 8)]⟩) 3 10 (by decide)⟩

/-- C7 (code bug): the in-process cache is unbounded. `TVMAZE_CACHE_SIZE` is
declared as the "maximum number of cached TVMaze lookups (in-memory)"
(src line 164) but never used: `add_to_cache` inserts unconditionally and no
LRU eviction exists, so 257 insertions with pairwise distinct keys leave 257
entries in `_persistent_tvmaze_cache`, exceeding the declared bound. -/
theorem cache_grows_past_declared_bound :
    TVMAZE_CACHE_SIZE < (fillCache (TVMAZE_CACHE_SIZE + 1)).length := by
  rw [fillCache_length]
  decide

/-- C8: batch isolation: each show's output record in `get_show_details` is a
function of that show alone — a show whose pipeline body raises degrades to
the minimal record `{'Title': title, 'seasons_in_plex': {}, 'tvmaze_info':
None}` while every other show keeps its complete record — and the batch
yields exactly one record per input show. -/
theorem batch_isolation (shows : List ShowObj) :
    (get_show_details shows).1 =
      shows.map (fun show_obj =>
        match process_single_show_body show_obj with
        | .ok r => popMaxSeasons r
        | .error _ => ⟨[("Title", show_obj.title)], [], none⟩) ∧
    (get_show_details shows).1.length = shows.length := by
  have hmap : (get_show_details shows).1 =
      shows.map (fun show_obj =>
        match process_single_show_body show_obj with
        | .ok r => popMaxSeasons r
        | .error _ => ⟨[("Title", show_obj.title)], [], none⟩) := by
    simp only [get_show_details, List.map_map]
    apply List.map_congr_left
    intro s hs
    simp only [Function.comp_apply, process_single_show]
    cases process_single_show_body s <;> rfl
  exact ⟨hmap, by rw [hmap, List.length_map]⟩

/-- C9: the second component of `get_show_details` is the largest per-show
season count observed across the batch (each show contributing its TVMaze
`total_seasons`, or 0 without remote info), and it dominates every individual
show's contribution. -/
theorem max_seasons_aggregation (shows : List ShowObj) :
    (get_show_details shows).2 =
      (shows.map (fun s => (process_single_show s).max_seasons)).foldr max 0 ∧
    ∀ show_obj ∈ shows,
      (process_single_show show_obj).max_seasons ≤
        (get_show_details shows).2 := by
  have hfold : (get_show_details shows).2 =
      (shows.map (fun s => (process_single_show s).max_seasons)).foldr
        max 0 := by
    have h1 : (shows.map process_single_show).foldl
        (fun acc r => max acc r.max_seasons) 0 =
        (shows.map (fun s => (process_single_show s).max_seasons)).foldl
          max 0 := by
      rw [List.foldl_map, List.foldl_map]
    simp only [get_show_details]
    rw [h1, foldl_max_eq_max_foldr, Nat.zero_max]
  refine ⟨hfold, ?_⟩
  intro show_obj hmem
  rw [hfold]
  exact le_foldr_max _ _ (List.mem_map_of_mem _ hmem)

/-- C9 witness: in a batch of one intact show (7 remote seasons) and one
degraded show (0), the aggregate is 7 and dominates the first show's
contribution. -/
theorem max_seasons_aggregation_witness :
    (process_single_show demoShowOk).max_seasons ≤
      (get_show_details [demoShowOk, demoShowBad]).2 ∧
    (get_show_details [demoShowOk, demoShowBad]).2 = 7 :=
  ⟨(max_seasons_aggregation [demoShowOk, demoShowBad]).2 demoShowOk
     (by simp), rfl⟩

/-- C10: the specials column `"S00"` appears in the TV-show sheet headers iff
at least one show in the batch has season 0 in its local Plex season data;
header generation never consults `tvmaze_info`, so remote-only specials never
produce a column (and `_write_tv_show_row` only renders cells for headers in
`season_headers_list`). -/
theorem s00_header_iff (selected_show_fields : List String)
    (hsel : ∀ f ∈ selected_show_fields, f ∈ ALL_POSSIBLE_SHOW_FIELDS)
    (shows_data_full : List ShowRecordData) (max_seasons_overall : Nat) :
    ("S00" ∈ (_generate_tv_show_headers selected_show_fields shows_data_full
        max_seasons_overall).1) ↔
      ∃ show_dict ∈ shows_data_full,
        dictHasKey show_dict.seasons_in_plex 0 = true := by
  simp only [_generate_tv_show_headers]
  by_cases hsp : (shows_data_full.any
      (fun show_dict => dictHasKey show_dict.seasons_in_plex 0)) = true
  · rw [if_pos hsp]
    constructor
    · intro hmem
      rcases List.any_eq_true.mp hsp with ⟨x, hx, hpx⟩
      exact ⟨x, hx, hpx⟩
    · intro hex
      simp
  · rw [if_neg hsp]
    constructor
    · intro hmem
      exfalso
      rcases List.mem_append.mp hmem with hleft | hshl
      · rcases List.mem_append.mp hleft with hbase | hcomp
        · have h2 := hsel _ hbase
          revert h2
          decide
        · revert hcomp
          decide
      · rw [List.nil_append] at hshl
        rcases List.mem_map.mp hshl with ⟨i, hi, hlab⟩
        have h1 : 1 ≤ i := (List.mem_range'_1.mp hi).1
        exact seasonHeaderLabel_ne_S00 i h1 hlab
    · intro hex
      rcases hex with ⟨sd, hsd, hkey⟩
      exact absurd (List.any_eq_true.mpr ⟨sd, hsd, hkey⟩) hsp

/-- C10 witness: with the default field selection, a single show holding a
local season 0 makes the `"S00"` column appear. -/
theorem s00_header_iff_witness :
    "S00" ∈ (_generate_tv_show_headers DEFAULT_SHOW_FIELDS
      [⟨[("Title", "The X-Files")], [(0, ⟨5, 0⟩)], none⟩] 2).1 :=
  (s00_header_iff DEFAULT_SHOW_FIELDS (by decide)
      [⟨[("Title", "The X-Files")], [(0, ⟨5, 0⟩)], none⟩] 2).mpr
    ⟨⟨[("Title", "The X-Files")], [(0, ⟨5, 0⟩)], none⟩, by simp, by decide⟩

end PlexMediaExport
